import Mathlib

/-!
Shallow embedding of the review-system backend (Express + Prisma) core:
subscription plan catalog and entitlement checks (services/subscriptionService.js),
the subscription-gate middleware and usage ledger (middleware/subscriptionAuth.js),
the AI enhancement flow (services/aiService.js, the ai controller), QR scan
tracking (services/qrCodeService.js), and public review submission (reviews route).

Datastore reads and writes are modelled by explicit state passing; a fallible
datastore operation is modelled by a boolean outcome flag saying whether that
particular query raised, mirroring the try/catch structure of the source.
JavaScript peculiarities are kept: an absent feature key gives an undefined
limit (`0 < undefined` is false, `undefined - 0` is NaN), falsy checks treat 0
and the empty string like absent values, plan lookup uppercases its argument.
-/

namespace ReviewSystem

/-- A value in a plan's feature map: a number (with -1 the unlimited sentinel) or a boolean gate. -/
inductive LimitVal where
  | num (n : Int)
  | flag (b : Bool)
deriving DecidableEq, Repr

/-- A subscription plan from the static catalog in subscriptionService.js. -/
structure Plan where
  id : String
  name : String
  price : ℚ
  features : String → Option LimitVal

/-- Feature map of the FREE plan (subscriptionService.js lines 12-24). -/
def freePlanFeatures : String → Option LimitVal
  | "aiEnhancementsPerMonth" => some (.num 5)
  | "reviewsPerMonth" => some (.num 10)
  | "customFormFields" => some (.num 3)
  | "basicAnalytics" => some (.flag true)
  | "emailSupport" => some (.flag false)
  | "customBranding" => some (.flag false)
  | "advancedAnalytics" => some (.flag false)
  | "prioritySupport" => some (.flag false)
  | "apiAccess" => some (.flag false)
  | "whiteLabel" => some (.flag false)
  | "multipleLocations" => some (.num 1)
  | _ => none

/-- Feature map of the PREMIUM plan (subscriptionService.js lines 33-45). -/
def premiumPlanFeatures : String → Option LimitVal
  | "aiEnhancementsPerMonth" => some (.num (-1))
  | "reviewsPerMonth" => some (.num (-1))
  | "customFormFields" => some (.num (-1))
  | "basicAnalytics" => some (.flag true)
  | "emailSupport" => some (.flag true)
  | "customBranding" => some (.flag true)
  | "advancedAnalytics" => some (.flag true)
  | "prioritySupport" => some (.flag true)
  | "apiAccess" => some (.flag true)
  | "whiteLabel" => some (.flag true)
  | "multipleLocations" => some (.num (-1))
  | _ => none

/-- The FREE plan catalog entry. -/
def freePlan : Plan := { id := "free", name := "Free", price := 0, features := freePlanFeatures }

/-- The PREMIUM plan catalog entry. -/
def premiumPlan : Plan :=
  { id := "premium", name := "Premium", price := 4999/100, features := premiumPlanFeatures }

/-- JavaScript toUpperCase on the character list of a string (ASCII letters). -/
def jsToUpper (s : String) : String := String.mk (s.data.map Char.toUpper)

/-- JavaScript toLowerCase on the character list of a string (ASCII letters). -/
def jsToLower (s : String) : String := String.mk (s.data.map Char.toLower)

/-- getPlan: uppercase the id, look it up in the catalog, default to FREE. -/
def getPlan (planId : String) : Plan :=
  let upperPlanId := jsToUpper planId
  if upperPlanId = "FREE" then freePlan
  else if upperPlanId = "PREMIUM" then premiumPlan
  else freePlan

/-- A subscription row: the entitlement check reads only planId; the other
columns are carried to state independence results. -/
structure Subscription where
  planId : String
  status : String
  startDate : Int
  endDate : Int
  cancelledAt : Option Int
deriving DecidableEq, Repr

/-- A business row with its optional 1:1 subscription. -/
structure Business where
  subscription : Option Subscription
deriving DecidableEq, Repr

/-- Datastore contents the entitlement check reads. Months are linear indices;
each AIReviewGeneration and Review row is recorded as (businessId, creation month). -/
structure Store where
  business : Nat → Option Business
  aiGenRows : List (Nat × Nat)
  reviewRows : List (Nat × Nat)

/-- Which datastore queries of one checkUsageLimit call raise an error. -/
structure DbOutcome where
  businessLookupFails : Bool
  usageReadFails : Bool
deriving DecidableEq, Repr

/-- Current-month usage read of checkFeatureLimit (the switch on the feature name):
AIReviewGeneration rows for aiEnhancementsPerMonth, Review rows for reviewsPerMonth,
rows filtered by creation date at or after the start of the current month; any other
feature reads no usage and counts 0. -/
def monthUsage (st : Store) (currentMonth businessId : Nat) (feature : String) : Nat :=
  if feature = "aiEnhancementsPerMonth" then
    (st.aiGenRows.filter fun r => decide (r.1 = businessId ∧ currentMonth ≤ r.2)).length
  else if feature = "reviewsPerMonth" then
    (st.reviewRows.filter fun r => decide (r.1 = businessId ∧ currentMonth ≤ r.2)).length
  else 0

/-- The limit field of an entitlement result: the string "unlimited", a number,
a boolean, or JavaScript undefined (feature key absent from the plan map). -/
inductive LimitField where
  | unlimited
  | num (n : Int)
  | flag (b : Bool)
  | undef
deriving DecidableEq, Repr

/-- A JavaScript number that may be NaN (undefined - used). -/
inductive JSNum where
  | val (n : Int)
  | nan
deriving DecidableEq, Repr

/-- Result object of checkUsageLimit / checkFeatureLimit; absent JSON fields are none. -/
structure CheckResult where
  allowed : Bool
  limit : Option LimitField := none
  used : Option Nat := none
  remaining : Option JSNum := none
  message : Option String := none
deriving DecidableEq, Repr

/-- checkFeatureLimit (subscriptionService.js lines 117-170): resolve the limit in
the plan feature map; -1 means unlimited; a boolean is returned as the decision with
no usage read; a numeric cap compares current-month usage (0 if the usage query
raised, mirroring the inner catch); an absent key falls through to the numeric
branch where `used < undefined` is false and `undefined - used` is NaN. -/
def checkFeatureLimit (st : Store) (currentMonth : Nat) (usageReadFails : Bool)
    (planId feature : String) (businessId : Nat) : CheckResult :=
  match (getPlan planId).features feature with
  | some (.num n) =>
    if n = -1 then
      { allowed := true, limit := some .unlimited, used := some 0 }
    else
      let used := if usageReadFails then 0 else monthUsage st currentMonth businessId feature
      { allowed := decide ((used : Int) < n), limit := some (.num n), used := some used,
        remaining := some (.val (max 0 (n - used))) }
  | some (.flag b) => { allowed := b, limit := some (.flag b), used := some 0 }
  | none =>
      let used := if usageReadFails then 0 else monthUsage st currentMonth businessId feature
      { allowed := false, limit := some .undef, used := some used, remaining := some .nan }

/-- checkUsageLimit (subscriptionService.js lines 92-112): a raised business lookup
is caught and answered allowed=false with a diagnostic; a missing business or missing
subscription falls back to FREE plan limits; otherwise the subscription's planId
selects the plan. -/
def checkUsageLimit (st : Store) (currentMonth : Nat) (dbo : DbOutcome)
    (businessId : Nat) (feature : String) : CheckResult :=
  if dbo.businessLookupFails then
    { allowed := false, message := some "Unable to verify subscription" }
  else
    match st.business businessId with
    | none => checkFeatureLimit st currentMonth dbo.usageReadFails "FREE" feature businessId
    | some b =>
      match b.subscription with
      | none => checkFeatureLimit st currentMonth dbo.usageReadFails "FREE" feature businessId
      | some sub => checkFeatureLimit st currentMonth dbo.usageReadFails sub.planId feature businessId

/-- The entitlement gate on POST /enhance-review and /regenerate-review:
checkSubscriptionLimit is instantiated with the feature string "ai_enhancement"
(userController.js lines 1164 and 1418). -/
def enhanceReviewGate (st : Store) (currentMonth : Nat) (dbo : DbOutcome)
    (businessId : Nat) : CheckResult :=
  checkUsageLimit st currentMonth dbo businessId "ai_enhancement"

/-- A store with no businesses and no usage rows. -/
def stEmpty : Store := { business := fun _ => none, aiGenRows := [], reviewRows := [] }

/-- A FREE, active subscription row. -/
def subFree : Subscription :=
  { planId := "FREE", status := "ACTIVE", startDate := 0, endDate := 30, cancelledAt := none }

/-- Business 1 on the FREE plan with no usage recorded. -/
def stFree0 : Store :=
  { business := fun bid => if bid = 1 then some { subscription := some subFree } else none,
    aiGenRows := [], reviewRows := [] }

/-- Business 1 on the FREE plan with five AI generations created in month 0. -/
def stFree5 : Store :=
  { business := fun bid => if bid = 1 then some { subscription := some subFree } else none,
    aiGenRows := [(1, 0), (1, 0), (1, 0), (1, 0), (1, 0)], reviewRows := [] }

/-- A PREMIUM subscription currently active. -/
def subPremiumActive : Subscription :=
  { planId := "PREMIUM", status := "ACTIVE", startDate := 0, endDate := 30, cancelledAt := none }

/-- A PREMIUM subscription already expired and cancelled. -/
def subPremiumExpired : Subscription :=
  { planId := "PREMIUM", status := "EXPIRED", startDate := -60, endDate := -30,
    cancelledAt := some (-30) }

/-- Business 1 on an active PREMIUM subscription, one generation and one review this month. -/
def stPremiumActive : Store :=
  { business := fun bid => if bid = 1 then some { subscription := some subPremiumActive } else none,
    aiGenRows := [(1, 0)], reviewRows := [(1, 0)] }

/-- Same store as stPremiumActive except the subscription status and dates say expired. -/
def stPremiumExpired : Store :=
  { business := fun bid => if bid = 1 then some { subscription := some subPremiumExpired } else none,
    aiGenRows := [(1, 0)], reviewRows := [(1, 0)] }

/-- Which fallible steps of one enhance-review request fail: text validation,
the Gemini call, the AIReviewGeneration insert, the review-status update, and the
SubscriptionUsage ledger upsert performed afterwards by recordUsage.
Prompt-template lookup and sentiment analysis catch internally and never throw. -/
structure EnhanceOutcome where
  textValidationFails : Bool
  aiCallFails : Bool
  generationCreateFails : Bool
  reviewUpdateFails : Bool
  ledgerUpsertFails : Bool
deriving DecidableEq, Repr

/-- An enhanceReview call succeeds when no stage fails. -/
def enhanceSucceeds (o : EnhanceOutcome) : Bool :=
  !o.textValidationFails && !o.aiCallFails && !o.generationCreateFails && !o.reviewUpdateFails

/-- Counters the enhancement flow writes: the SubscriptionUsage ledger entry for
(business, current month, ai_enhancement), the AIReviewGeneration rows, and the
AIUsageAnalytics events. -/
structure EnhanceState where
  usageLedger : Nat
  aiGenerations : Nat
  analyticsEvents : Nat
deriving DecidableEq, Repr

/-- aiService.enhanceReview (aiService.js lines 16-99): validate, call the model,
insert the generation row, update the review; the first failing stage jumps to the
catch block, which records a failed analytics event and rethrows. Both paths record
one analytics event. Returns the state and whether the call succeeded (true) or
threw (false). -/
def aiServiceEnhanceReview (s : EnhanceState) (o : EnhanceOutcome) : EnhanceState × Bool :=
  if o.textValidationFails then ({ s with analyticsEvents := s.analyticsEvents + 1 }, false)
  else if o.aiCallFails then ({ s with analyticsEvents := s.analyticsEvents + 1 }, false)
  else if o.generationCreateFails then ({ s with analyticsEvents := s.analyticsEvents + 1 }, false)
  else
    let s1 := { s with aiGenerations := s.aiGenerations + 1 }
    if o.reviewUpdateFails then ({ s1 with analyticsEvents := s1.analyticsEvents + 1 }, false)
    else ({ s1 with analyticsEvents := s1.analyticsEvents + 1 }, true)

/-- The POST /enhance-review handler after its gate (userController.js lines 1227-1256):
run aiService.enhanceReview; on success call recordUsage, whose try/catch swallows a
failing SubscriptionUsage upsert (subscriptionAuth.js lines 210-213), so the ledger is
incremented only when that upsert succeeds while the response is 201 either way; on a
thrown enhancement error respond 500 without touching the ledger. -/
def enhanceReviewEndpoint (s : EnhanceState) (o : EnhanceOutcome) : EnhanceState × Nat :=
  match aiServiceEnhanceReview s o with
  | (s1, true) =>
    if o.ledgerUpsertFails then (s1, 201)
    else ({ s1 with usageLedger := s1.usageLedger + 1 }, 201)
  | (s1, false) => (s1, 500)

/-- Positive sentiment word list of generateSmartFallbackEnhancement. -/
def positiveWords : List String :=
  ["good", "great", "excellent", "amazing", "wonderful", "fantastic", "love", "perfect",
   "awesome", "outstanding", "nice", "pleasant", "satisfied", "happy", "impressed", "recommend"]

/-- Negative sentiment word list of generateSmartFallbackEnhancement. -/
def negativeWords : List String :=
  ["bad", "terrible", "awful", "horrible", "disappointing", "poor", "worst", "hate",
   "disgusting", "rude", "slow", "dirty", "expensive", "unsatisfied", "frustrated"]

/-- Does the character list start with the given character list? -/
def charsHaveInit (cs sub : List Char) : Bool :=
  match cs, sub with
  | _, [] => true
  | [], _ :: _ => false
  | c :: cs, d :: ds => c == d && charsHaveInit cs ds

/-- Does the character list contain the given character list as a contiguous run? -/
def charsContain (cs sub : List Char) : Bool :=
  match cs with
  | [] => charsHaveInit [] sub
  | c :: rest => charsHaveInit (c :: rest) sub || charsContain rest sub

/-- JavaScript String.prototype.includes: substring containment. -/
def jsIncludes (s sub : String) : Bool := charsContain s.data sub.data

/-- Sentiment classes of the lexical heuristic. -/
inductive Sentiment where
  | positive
  | neutral
  | negative
deriving DecidableEq, Repr

/-- Lexical sentiment heuristic: count positive and negative dictionary words
contained in the lowercased text; strict majority with at least one hit decides. -/
def detectSentiment (text : String) : Sentiment :=
  let lowerText := jsToLower text
  let positiveCount := (positiveWords.filter fun w => jsIncludes lowerText w).length
  let negativeCount := (negativeWords.filter fun w => jsIncludes lowerText w).length
  if positiveCount > negativeCount ∧ positiveCount > 0 then .positive
  else if negativeCount > positiveCount ∧ negativeCount > 0 then .negative
  else .neutral

/-- JavaScript `v || d` on an optional string: absent and empty are falsy. -/
def jsOrDefault (v : Option String) (d : String) : String :=
  match v with
  | some s => if s = "" then d else s
  | none => d

/-- Business context passed to the enhancement endpoints. -/
structure BusinessContext where
  businessName : Option String := none
  businessType : Option String := none

/-- Opening templates of the positive fallback path. -/
def positiveOpenings (businessName : String) : List String :=
  ["I recently had the pleasure of visiting " ++ businessName,
   "Just finished an incredible experience at " ++ businessName,
   "I'm absolutely thrilled to share my visit to " ++ businessName,
   "Had the most wonderful time at " ++ businessName,
   "I was completely blown away by my experience at " ++ businessName,
   "Exceptional service at " ++ businessName,
   "I couldn't be more satisfied with " ++ businessName,
   "Outstanding experience from start to finish at " ++ businessName,
   "I'm delighted to write about my fantastic visit to " ++ businessName,
   "Genuinely impressed with " ++ businessName,
   "I had such a positive experience at " ++ businessName,
   "Really want to highlight the amazing service at " ++ businessName,
   "My visit to " ++ businessName ++ " exceeded all expectations",
   "I'm so grateful for the excellent experience at " ++ businessName]

/-- Middle templates of the positive fallback path; each embeds the improved text. -/
def positiveMiddles (improvedText : String) : List String :=
  [improvedText ++ " What really stood out was their genuine commitment to excellence",
   improvedText ++ " I was particularly impressed by their attention to detail",
   improvedText ++ " The level of professionalism here is truly remarkable",
   improvedText ++ " What I loved most was how they made everything feel personal",
   improvedText ++ " The quality of service really sets them apart from others",
   improvedText ++ " I was amazed by how they went above and beyond",
   improvedText ++ " The entire experience felt seamless and well-organized",
   improvedText ++ " What struck me was their genuine care for customer satisfaction"]

/-- Ending templates of the positive fallback path. -/
def positiveEndings : List String :=
  ["I'll definitely be returning and highly recommend to everyone!",
   "Five stars without hesitation - they've earned a loyal customer!",
   "Already planning my next visit - absolutely worth it!",
   "This is exactly what quality service looks like!",
   "They've set the bar incredibly high for other businesses!",
   "If you're looking for excellence, this is your place!"]

/-- Neutral templates of the fallback path. -/
def neutralTemplates (businessName businessType improvedText : String) : List String :=
  ["I visited " ++ businessName ++ " recently and wanted to share my thoughts. " ++
     improvedText ++ " The " ++ jsToLower businessType ++
     " provides reliable service that meets expectations. Staff was professional and handled everything adequately. It's a solid, dependable choice for the area.",
   "Had a decent experience at " ++ businessName ++ ". " ++ improvedText ++
     " The service was consistent and the team was courteous. For a " ++
     jsToLower businessType ++ ", it delivers what you'd expect. Good value and reliable option."]

/-- Negative templates of the fallback path. -/
def negativeTemplates (businessName businessType improvedText : String) : List String :=
  ["I feel compelled to share my recent experience at " ++ businessName ++ ". " ++
     improvedText ++
     " Unfortunately, there are several areas that need attention. I hope the management considers this feedback constructively, as there's definitely potential for improvement.",
   "My visit to " ++ businessName ++ " left room for improvement. " ++ improvedText ++
     " While I don't enjoy writing critical reviews, I think honest feedback is important. With some adjustments, this " ++
     jsToLower businessType ++ " could significantly enhance their service."]

/-- generateSmartFallbackEnhancement (userController.js lines 1674-1753): pick a
sentiment by the lexical heuristic; positive assembles opening, middle and ending
selected by seed arithmetic modulo the template counts; neutral and negative pick
one whole template the same way. variationSeed and timeSeed stand for the
variation id and Date.now() modulo 1000. -/
def generateSmartFallbackEnhancement (improvedText : String) (ctx : BusinessContext)
    (variationSeed timeSeed : Nat) : String :=
  let businessName := jsOrDefault ctx.businessName "this business"
  let businessType := jsOrDefault ctx.businessType "establishment"
  match detectSentiment improvedText with
  | .positive =>
    let openings := positiveOpenings businessName
    let middles := positiveMiddles improvedText
    let endings := positiveEndings
    openings.getD ((variationSeed + timeSeed) % openings.length) "" ++ ". " ++
      middles.getD ((variationSeed * 2 + timeSeed) % middles.length) "" ++ ". " ++
      endings.getD ((variationSeed * 3 + timeSeed) % endings.length) ""
  | .negative =>
    let templates := negativeTemplates businessName businessType improvedText
    templates.getD ((variationSeed + timeSeed) % templates.length) ""
  | .neutral =>
    let templates := neutralTemplates businessName businessType improvedText
    templates.getD ((variationSeed + timeSeed) % templates.length) ""

/-- Response of the POST /enhance-text handler. -/
inductive ETResponse where
  | validationError (message : String)
  | success (originalText enhancedText : String)
deriving DecidableEq, Repr

/-- The POST /enhance-text handler (userController.js lines 954-1154).
validateReviewText, improveTextFormatting and enhanceWithFormatting live in
utils missing from this snapshot, so they are taken as parameters. The express
validator rejects texts under 5 characters; content validation runs only for
texts of at least 10 characters; the inner try falls back to the local template
generator when the model call raised or returned whitespace. -/
def enhanceTextHandler (validateReviewText : String → Bool)
    (improveTextFormatting : String → String) (enhanceWithFormatting : String → String → String)
    (aiCall : Option String) (ctx : BusinessContext) (variationSeed timeSeed : Nat)
    (originalText : String) : ETResponse :=
  if originalText.length < 5 then .validationError "Validation failed"
  else if 10 ≤ originalText.length ∧ validateReviewText originalText = false then
    .validationError "Invalid review content"
  else
    let improvedOriginalText := improveTextFormatting originalText
    let enhancedText :=
      match aiCall with
      | none => generateSmartFallbackEnhancement improvedOriginalText ctx variationSeed timeSeed
      | some t =>
        if t.trim.length = 0 then
          generateSmartFallbackEnhancement improvedOriginalText ctx variationSeed timeSeed
        else enhanceWithFormatting improvedOriginalText t
    .success improvedOriginalText enhancedText

/-- Body of a POST /reviews/public request; absent JSON fields are none. -/
structure PublicReviewRequest where
  customerId : Option Nat
  businessId : Option Nat
  rating : Option Int
  feedback : Option String
deriving DecidableEq, Repr

/-- A persisted review row as created by the public submission route. -/
structure ReviewRow where
  customerId : Nat
  businessId : Nat
  rating : Int
  feedback : String
deriving DecidableEq, Repr

/-- Datastore contents the public submission route touches. -/
structure ReviewStore where
  customers : List (Nat × Nat)
  businesses : List Nat
  reviews : List ReviewRow
deriving DecidableEq, Repr

/-- Response of POST /reviews/public. -/
inductive PublicReviewResponse where
  | badRequest (error : String)
  | notFound (error : String)
  | created (review : ReviewRow)
deriving DecidableEq, Repr

/-- JavaScript falsiness of an optional id: absent or zero. -/
def jsFalsyNat (v : Option Nat) : Bool :=
  match v with
  | none => true
  | some n => n == 0

/-- JavaScript falsiness of an optional number: absent or zero. -/
def jsFalsyInt (v : Option Int) : Bool :=
  match v with
  | none => true
  | some n => n == 0

/-- POST /reviews/public (reviews route lines 59-106): require truthy customerId,
businessId and rating; require the customer to exist under the business and the
business to exist; then create the review with parseInt(rating) and
`feedback ||` the empty string. No rating range check, no content validation. -/
def submitPublicReview (st : ReviewStore) (req : PublicReviewRequest) :
    PublicReviewResponse × ReviewStore :=
  if jsFalsyNat req.customerId || jsFalsyNat req.businessId || jsFalsyInt req.rating then
    (.badRequest "Customer ID, business ID, and rating are required", st)
  else
    match req.customerId, req.businessId, req.rating with
    | some customerId, some businessId, some rating =>
      if !(st.customers.any fun c => c.1 == customerId && c.2 == businessId) then
        (.notFound "Customer not found", st)
      else if !(st.businesses.contains businessId) then
        (.notFound "Business not found", st)
      else
        let row : ReviewRow :=
          { customerId := customerId, businessId := businessId, rating := rating,
            feedback := req.feedback.getD "" }
        (.created row, { st with reviews := row :: st.reviews })
    | _, _, _ => (.badRequest "Customer ID, business ID, and rating are required", st)

/-- A concrete store for the public submission route: customer 1 of business 2. -/
def pubStoreCx : ReviewStore := { customers := [(1, 2)], businesses := [2], reviews := [] }

/-- Denormalized QR code scan state: number of QRScan rows and the scansCount counter. -/
structure QRState where
  scanRows : Nat
  scansCount : Nat
deriving DecidableEq, Repr

/-- Which of the two writes of one trackScan call fail. -/
structure TrackScanOutcome where
  scanCreateFails : Bool
  countUpdateFails : Bool
deriving DecidableEq, Repr

/-- trackScan (qrCodeService.js lines 220-249): insert the QRScan row, then in a
separate statement increment scansCount; there is no transaction, so a failing
increment leaves the already-inserted row in place and the catch reports failure. -/
def trackScan (s : QRState) (o : TrackScanOutcome) : QRState × Bool :=
  if o.scanCreateFails then (s, false)
  else
    let s1 := { s with scanRows := s.scanRows + 1 }
    if o.countUpdateFails then (s1, false)
    else ({ s1 with scansCount := s1.scansCount + 1 }, true)

/-- One fully successful trackScan call. -/
def trackScanOk (s : QRState) : QRState := (trackScan s { scanCreateFails := false, countUpdateFails := false }).1

/-- Review moderation status values. -/
inductive ReviewStatus where
  | PENDING
  | AI_GENERATED
  | APPROVED
  | PUBLISHED
  | REJECTED
deriving DecidableEq, Repr

/-- AIReviewGeneration status values. -/
inductive GenStatus where
  | PENDING
  | APPROVED
  | REJECTED
  | REGENERATED
deriving DecidableEq, Repr

/-- A review row in the enhancement lifecycle. -/
structure Review where
  status : ReviewStatus
  rating : Int
  feedback : String
  generatedReview : Option String
deriving DecidableEq, Repr

/-- An AIReviewGeneration row. -/
structure AIGenRecord where
  status : GenStatus
  originalText : String
  enhancedText : String
  rejectionNote : Option String
deriving DecidableEq, Repr

/-- aiService.rejectReview (aiService.js lines 287-307): set the generation status
to REJECTED with the note, and set the review status back to PENDING; no other
column of either row is written. -/
def rejectReview (r : Review) (g : AIGenRecord) (note : Option String) :
    Review × AIGenRecord :=
  ({ r with status := .PENDING }, { g with status := .REJECTED, rejectionNote := note })

/-- The already-enhanced guard of POST /enhance-review (userController.js line 1211):
the request is blocked when a generation exists whose status is not REJECTED. -/
def enhanceBlocked (g : Option AIGenRecord) : Bool :=
  match g with
  | none => false
  | some gen => gen.status != .REJECTED

/-- JavaScript `s.split(' ').length`: the number of space-separated chunks,
which is the number of space characters plus one. -/
def splitWordsCount (s : String) : Nat := s.data.count ' ' + 1

/-- The capitalization and punctuation bonus condition of calculateConfidence:
the enhanced text contains a period and its first character is unchanged by
uppercasing. -/
def properlyCapitalizedPunctuated (enhanced : String) : Bool :=
  enhanced.data.contains '.' && ((enhanced.data.headD 'A').toUpper == enhanced.data.headD 'A')

/-- calculateConfidence (aiService.js lines 214-237): base 0.7; +0.1 when the
enhanced word count is strictly greater than the original word count and at most
twice it; +0.1 for the capitalization and punctuation condition; capped at 1.0. -/
def calculateConfidence (original enhanced : String) : ℚ :=
  let originalWords := splitWordsCount original
  let enhancedWords := splitWordsCount enhanced
  let base : ℚ := 7/10
  let c1 := if enhancedWords > originalWords ∧ enhancedWords ≤ originalWords * 2
    then base + 1/10 else base
  let c2 := if properlyCapitalizedPunctuated enhanced then c1 + 1/10 else c1
  min c2 1

/-- The confidence formula as the specification words it, for comparison with
calculateConfidence: the length bonus applies when the enhanced length is within
the closed interval from one times to two times the original length. -/
def specClaimedConfidence (original enhanced : String) : ℚ :=
  let originalWords := splitWordsCount original
  let enhancedWords := splitWordsCount enhanced
  let base : ℚ := 7/10
  let c1 := if originalWords ≤ enhancedWords ∧ enhancedWords ≤ originalWords * 2
    then base + 1/10 else base
  let c2 := if properlyCapitalizedPunctuated enhanced then c1 + 1/10 else c1
  min c2 1

/-! Theorems. -/

/-- Usage reads are determined by the usage rows, not by the business table. -/
theorem monthUsage_ext (st1 st2 : Store) (m bid : Nat) (f : String)
    (hai : st1.aiGenRows = st2.aiGenRows) (hrev : st1.reviewRows = st2.reviewRows) :
    monthUsage st1 m bid f = monthUsage st2 m bid f := by
  unfold monthUsage
  rw [hai, hrev]

/-- checkFeatureLimit is determined by the usage rows, not by the business table. -/
theorem checkFeatureLimit_ext (st1 st2 : Store) (m : Nat) (rf : Bool) (p f : String) (bid : Nat)
    (hai : st1.aiGenRows = st2.aiGenRows) (hrev : st1.reviewRows = st2.reviewRows) :
    checkFeatureLimit st1 m rf p f bid = checkFeatureLimit st2 m rf p f bid := by
  unfold checkFeatureLimit
  rw [monthUsage_ext st1 st2 m bid f hai hrev]

/-- C2: for every plan and feature key present in that plan's feature map, the
entitlement check returns allowed=true with the limit reported "unlimited" when the
limit is the -1 sentinel; the boolean value itself when the limit is a boolean, with
no usage counted; and for a numeric cap allowed = (used < limit) with
remaining = max 0 (limit - used), where used is the current calendar month's usage
count; in particular a business on a PREMIUM subscription is always allowed
aiEnhancementsPerMonth regardless of recorded usage. -/
theorem checkFeatureLimit_spec (planId feature : String) (st : Store)
    (currentMonth businessId : Nat) :
    ((getPlan planId).features feature = some (.num (-1)) →
      checkFeatureLimit st currentMonth false planId feature businessId =
        { allowed := true, limit := some .unlimited, used := some 0 }) ∧
    (∀ b : Bool, (getPlan planId).features feature = some (.flag b) →
      checkFeatureLimit st currentMonth false planId feature businessId =
        { allowed := b, limit := some (.flag b), used := some 0 }) ∧
    (∀ n : Int, n ≠ -1 → (getPlan planId).features feature = some (.num n) →
      checkFeatureLimit st currentMonth false planId feature businessId =
        { allowed := decide ((monthUsage st currentMonth businessId feature : Int) < n),
          limit := some (.num n),
          used := some (monthUsage st currentMonth businessId feature),
          remaining := some (.val (max 0 (n - monthUsage st currentMonth businessId feature))) }) ∧
    (∀ (dbo : DbOutcome) (b : Business) (sub : Subscription),
      dbo.businessLookupFails = false →
      st.business businessId = some b → b.subscription = some sub → sub.planId = "PREMIUM" →
      (checkUsageLimit st currentMonth dbo businessId "aiEnhancementsPerMonth").allowed = true) := by
  refine ⟨?_, ?_, ?_, ?_⟩
  · intro h
    simp [checkFeatureLimit, h]
  · intro b h
    simp [checkFeatureLimit, h]
  · intro n hn h
    simp [checkFeatureLimit, h, hn]
  · intro dbo b sub hdbo hb hsub hplan
    have hfeat : (getPlan "PREMIUM").features "aiEnhancementsPerMonth" = some (.num (-1)) := by
      decide
    simp [checkUsageLimit, hdbo, hb, hsub, hplan, checkFeatureLimit, hfeat]

/-- Witness for checkFeatureLimit_spec at a concrete plan, feature and store. -/
theorem checkFeatureLimit_spec_witness :
    checkFeatureLimit stEmpty 0 false "PREMIUM" "aiEnhancementsPerMonth" 9 =
      { allowed := true, limit := some .unlimited, used := some 0 } :=
  (checkFeatureLimit_spec "PREMIUM" "aiEnhancementsPerMonth" stEmpty 0 9).1 (by decide)

/-- C1 (counterexample): the entitlement check does not fail closed on every lookup
failure. A missing business falls back to FREE plan limits and can answer
allowed=true; a datastore error during the usage-count read is treated as zero
usage and answers allowed=true even for a business whose quota is exhausted
(third conjunct: the same exhausted store answers allowed=false when the read
succeeds). -/
theorem checkUsageLimit_fails_open_cx :
    (checkUsageLimit stEmpty 0 { businessLookupFails := false, usageReadFails := false }
        7 "basicAnalytics").allowed = true ∧
    (checkUsageLimit stFree5 0 { businessLookupFails := false, usageReadFails := true }
        1 "aiEnhancementsPerMonth").allowed = true ∧
    (checkUsageLimit stFree5 0 { businessLookupFails := false, usageReadFails := false }
        1 "aiEnhancementsPerMonth").allowed = false := by
  decide

/-- C1 (amended): only a datastore error during the subscription lookup fails closed,
with the diagnostic message "Unable to verify subscription"; a missing business or
subscription instead falls back to the FREE plan limits; and a datastore error during
the usage-count read is treated as zero usage, so any positive numeric cap then
answers allowed=true (fails open). -/
theorem checkUsageLimit_error_paths (st : Store) (currentMonth businessId : Nat)
    (feature : String) (rf : Bool) :
    (checkUsageLimit st currentMonth { businessLookupFails := true, usageReadFails := rf }
        businessId feature =
      { allowed := false, message := some "Unable to verify subscription" }) ∧
    (st.business businessId = none →
      checkUsageLimit st currentMonth { businessLookupFails := false, usageReadFails := rf }
          businessId feature =
        checkFeatureLimit st currentMonth rf "FREE" feature businessId) ∧
    (∀ n : Int, (getPlan "FREE").features feature = some (.num n) → 0 < n →
      (checkFeatureLimit st currentMonth true "FREE" feature businessId).allowed = true) := by
  refine ⟨?_, ?_, ?_⟩
  · simp [checkUsageLimit]
  · intro h
    simp [checkUsageLimit, h]
  · intro n hf hn
    have hne : ¬(n = -1) := by omega
    simp [checkFeatureLimit, hf, hne]
    exact_mod_cast hn

/-- Witness for checkUsageLimit_error_paths at a concrete store and feature. -/
theorem checkUsageLimit_error_paths_witness :
    (checkUsageLimit stEmpty 0 { businessLookupFails := true, usageReadFails := true }
        3 "aiEnhancementsPerMonth" =
      { allowed := false, message := some "Unable to verify subscription" }) ∧
    (checkUsageLimit stEmpty 0 { businessLookupFails := false, usageReadFails := true }
        3 "aiEnhancementsPerMonth" =
      checkFeatureLimit stEmpty 0 true "FREE" "aiEnhancementsPerMonth" 3) ∧
    (checkFeatureLimit stEmpty 0 true "FREE" "aiEnhancementsPerMonth" 3).allowed = true := by
  have h := checkUsageLimit_error_paths stEmpty 0 3 "aiEnhancementsPerMonth" true
  exact ⟨h.1, h.2.1 rfl, h.2.2 5 (by decide) (by norm_num)⟩

/-- C3 (code bug): the gate on POST /enhance-review checks the feature string
"ai_enhancement", which is not a key of any plan's feature map, so the limit is
undefined and the gate denies every request: the very first attempt of a FREE
business with no usage is denied with used=0 and an undefined limit, and even an
active PREMIUM business is denied. By contrast the plan key
"aiEnhancementsPerMonth" has the behavior the claim describes: with five
generations recorded this month the check answers allowed=false, used=5, limit=5,
remaining=0, and in the next month the usage count is 0 again. -/
theorem enhanceReviewGate_always_denies :
    (enhanceReviewGate stFree0 0 { businessLookupFails := false, usageReadFails := false } 1 =
      { allowed := false, limit := some .undef, used := some 0, remaining := some .nan }) ∧
    (enhanceReviewGate stPremiumActive 0
        { businessLookupFails := false, usageReadFails := false } 1).allowed = false ∧
    (checkFeatureLimit stFree5 0 false "FREE" "aiEnhancementsPerMonth" 1 =
      { allowed := false, limit := some (.num 5), used := some 5,
        remaining := some (.val 0) }) ∧
    monthUsage stFree5 1 1 "aiEnhancementsPerMonth" = 0 := by
  decide

/-- C10: the entitlement result reads only the subscription's planId (and the usage
rows): two states whose subscriptions agree on planId but may differ in status,
startDate, endDate and cancelledAt give identical results for every feature. -/
theorem checkUsageLimit_depends_only_on_planId
    (st1 st2 : Store) (currentMonth businessId : Nat) (dbo : DbOutcome) (feature : String)
    (b1 b2 : Business) (s1 s2 : Subscription)
    (h1 : st1.business businessId = some b1) (h2 : st2.business businessId = some b2)
    (hs1 : b1.subscription = some s1) (hs2 : b2.subscription = some s2)
    (hplan : s1.planId = s2.planId)
    (hai : st1.aiGenRows = st2.aiGenRows) (hrev : st1.reviewRows = st2.reviewRows) :
    checkUsageLimit st1 currentMonth dbo businessId feature =
      checkUsageLimit st2 currentMonth dbo businessId feature := by
  by_cases hd : dbo.businessLookupFails
  · simp [checkUsageLimit, hd]
  · simp only [checkUsageLimit, hd, if_false, h1, h2, hs1, hs2, Bool.false_eq_true]
    rw [hplan]
    exact checkFeatureLimit_ext st1 st2 currentMonth dbo.usageReadFails s2.planId feature
      businessId hai hrev

/-- Witness for checkUsageLimit_depends_only_on_planId: an active and an expired
PREMIUM subscription with the same usage rows get the same entitlement answer. -/
theorem checkUsageLimit_depends_only_on_planId_witness :
    checkUsageLimit stPremiumActive 0 { businessLookupFails := false, usageReadFails := false }
        1 "reviewsPerMonth" =
      checkUsageLimit stPremiumExpired 0 { businessLookupFails := false, usageReadFails := false }
        1 "reviewsPerMonth" :=
  checkUsageLimit_depends_only_on_planId stPremiumActive stPremiumExpired 0 1
    { businessLookupFails := false, usageReadFails := false } "reviewsPerMonth"
    { subscription := some subPremiumActive } { subscription := some subPremiumExpired }
    subPremiumActive subPremiumExpired rfl rfl rfl rfl rfl rfl rfl

/-- One enhance-review call moves the usage ledger by one exactly when the
enhancement succeeds and the swallowed ledger upsert does not fail. -/
theorem enhanceReviewEndpoint_ledger_step (s : EnhanceState) (o : EnhanceOutcome) :
    (enhanceReviewEndpoint s o).1.usageLedger =
      if enhanceSucceeds o && !o.ledgerUpsertFails then s.usageLedger + 1
      else s.usageLedger := by
  obtain ⟨v, a, g, r, l⟩ := o
  cases v <;> cases a <;> cases g <;> cases r <;> cases l <;>
    simp [enhanceReviewEndpoint, aiServiceEnhanceReview, enhanceSucceeds]

/-- C4 (counterexample): the ledger write is not exactly-once per successful
enhancement. recordUsage swallows a failing SubscriptionUsage upsert, so an
execution exists in which every enhancement stage succeeds — the handler answers
201 and the enhancement counts as successful — yet the ledger stays at 0. -/
theorem usageLedger_swallowed_upsert_cx :
    (enhanceReviewEndpoint { usageLedger := 0, aiGenerations := 0, analyticsEvents := 0 }
      { textValidationFails := false, aiCallFails := false, generationCreateFails := false,
        reviewUpdateFails := false, ledgerUpsertFails := true }).2 = 201 ∧
    (enhanceReviewEndpoint { usageLedger := 0, aiGenerations := 0, analyticsEvents := 0 }
      { textValidationFails := false, aiCallFails := false, generationCreateFails := false,
        reviewUpdateFails := false, ledgerUpsertFails := true }).1.usageLedger = 0 ∧
    enhanceSucceeds
      { textValidationFails := false, aiCallFails := false, generationCreateFails := false,
        reviewUpdateFails := false, ledgerUpsertFails := true } = true := by
  decide

/-- C4 (amended): the usage ledger is incremented at most once per successful
enhancement and never for a failed one. A single call adds one to the ledger exactly
when every enhancement stage succeeded and the subsequent ledger upsert did not
raise; a failed enhancement never moves the ledger; over any sequence of calls the
ledger grows by exactly the number of successful calls whose ledger write succeeded,
which is at most the number of successful enhancements — a failed ledger upsert is
swallowed, leaving a successful enhancement uncounted. -/
theorem usageLedger_at_most_once_per_success (s : EnhanceState) (o : EnhanceOutcome) :
    ((enhanceReviewEndpoint s o).1.usageLedger =
      if enhanceSucceeds o && !o.ledgerUpsertFails then s.usageLedger + 1
      else s.usageLedger) ∧
    (enhanceSucceeds o = false →
      (enhanceReviewEndpoint s o).1.usageLedger = s.usageLedger) ∧
    (∀ os : List EnhanceOutcome,
      ((os.foldl (fun st oc => (enhanceReviewEndpoint st oc).1) s).usageLedger =
        s.usageLedger +
          (os.filter fun oc => enhanceSucceeds oc && !oc.ledgerUpsertFails).length)) ∧
    (∀ os : List EnhanceOutcome,
      (os.filter fun oc => enhanceSucceeds oc && !oc.ledgerUpsertFails).length ≤
        (os.filter enhanceSucceeds).length) := by
  refine ⟨enhanceReviewEndpoint_ledger_step s o, ?_, ?_, ?_⟩
  · intro h
    rw [enhanceReviewEndpoint_ledger_step s o, h]
    simp
  · intro os
    induction os generalizing s with
    | nil => simp
    | cons oc os ih =>
      simp only [List.foldl_cons, List.filter_cons]
      rw [ih]
      rw [enhanceReviewEndpoint_ledger_step s oc]
      by_cases h : (enhanceSucceeds oc && !oc.ledgerUpsertFails) = true <;>
        simp [h] <;> try omega
  · intro os
    induction os with
    | nil => simp
    | cons oc os ih =>
      simp only [List.filter_cons]
      by_cases h1 : enhanceSucceeds oc = true
      · by_cases h2 : oc.ledgerUpsertFails = true <;> simp [h1, h2] <;> omega
      · simp [h1]
        exact ih

/-- Witness for usageLedger_at_most_once_per_success: a failed enhancement leaves
the ledger untouched. -/
theorem usageLedger_at_most_once_per_success_witness :
    (enhanceReviewEndpoint { usageLedger := 0, aiGenerations := 0, analyticsEvents := 0 }
      { textValidationFails := true, aiCallFails := false, generationCreateFails := false,
        reviewUpdateFails := false, ledgerUpsertFails := false }).1.usageLedger = 0 := by
  have h := usageLedger_at_most_once_per_success
    { usageLedger := 0, aiGenerations := 0, analyticsEvents := 0 }
    { textValidationFails := true, aiCallFails := false, generationCreateFails := false,
      reviewUpdateFails := false, ledgerUpsertFails := false }
  exact h.2.1 (by decide)

/-- C5 (counterexample): aiService.enhanceReview has no local fallback. With text
validation passing and the external model call failing, the call throws, and the
POST /enhance-review handler surfaces a hard 500 failure to the caller instead of
answering with fallback text. -/
theorem enhanceReview_hard_failure_cx :
    (aiServiceEnhanceReview { usageLedger := 0, aiGenerations := 0, analyticsEvents := 0 }
      { textValidationFails := false, aiCallFails := true, generationCreateFails := false,
        reviewUpdateFails := false, ledgerUpsertFails := false }).2 = false ∧
    (enhanceReviewEndpoint { usageLedger := 0, aiGenerations := 0, analyticsEvents := 0 }
      { textValidationFails := false, aiCallFails := true, generationCreateFails := false,
        reviewUpdateFails := false, ledgerUpsertFails := false }).2 = 500 := by
  decide

/-- A string append is non-empty when its left part is. -/
theorem length_append_pos_left (s t : String) (h : 0 < s.length) : 0 < (s ++ t).length := by
  rw [String.length_append]
  omega

/-- A string append is non-empty when its right part is. -/
theorem length_append_pos_right (s t : String) (h : 0 < t.length) : 0 < (s ++ t).length := by
  rw [String.length_append]
  omega

/-- Every neutral fallback template selected by seed arithmetic is non-empty. -/
theorem neutralTemplates_getD_length_pos (bn bt t : String) (i : Nat) :
    0 < ((neutralTemplates bn bt t).getD (i % (neutralTemplates bn bt t).length) "").length := by
  have hlen : (neutralTemplates bn bt t).length = 2 := rfl
  rw [hlen]
  have hmod : i % 2 = 0 ∨ i % 2 = 1 := by omega
  rcases hmod with h0 | h0 <;>
    rw [h0] <;>
    simp only [neutralTemplates, List.getD_cons_zero, List.getD_cons_succ] <;>
    repeat first
      | decide
      | apply length_append_pos_left

/-- Every negative fallback template selected by seed arithmetic is non-empty. -/
theorem negativeTemplates_getD_length_pos (bn bt t : String) (i : Nat) :
    0 < ((negativeTemplates bn bt t).getD (i % (negativeTemplates bn bt t).length) "").length := by
  have hlen : (negativeTemplates bn bt t).length = 2 := rfl
  rw [hlen]
  have hmod : i % 2 = 0 ∨ i % 2 = 1 := by omega
  rcases hmod with h0 | h0 <;>
    rw [h0] <;>
    simp only [negativeTemplates, List.getD_cons_zero, List.getD_cons_succ] <;>
    repeat first
      | decide
      | apply length_append_pos_left

/-- The local fallback rewrite always produces non-empty text. -/
theorem generateSmartFallbackEnhancement_nonempty (t : String) (ctx : BusinessContext)
    (vs ts : Nat) :
    0 < (generateSmartFallbackEnhancement t ctx vs ts).length := by
  simp only [generateSmartFallbackEnhancement]
  cases detectSentiment t
  · apply length_append_pos_left
    apply length_append_pos_right
    decide
  · exact neutralTemplates_getD_length_pos _ _ _ _
  · exact negativeTemplates_getD_length_pos _ _ _ _

/-- C5 (amended): only the public POST /enhance-text endpoint never hard-fails after
validation: for every input accepted by validation, when the external call fails
(transport error or an all-whitespace response) the handler answers success with the
deterministic local fallback rewrite, which is always non-empty. The enhance-review
operation (aiService.enhanceReview) has no such fallback: a failed model call there
surfaces a hard 500 failure. -/
theorem enhanceText_falls_back_on_ai_failure
    (validate : String → Bool) (improveFmt : String → String) (fmt : String → String → String)
    (aiCall : Option String) (ctx : BusinessContext) (variationSeed timeSeed : Nat)
    (text : String)
    (hlen : 5 ≤ text.length)
    (hvalid : text.length < 10 ∨ validate text = true)
    (hfail : aiCall = none ∨ ∃ t, aiCall = some t ∧ t.trim.length = 0) :
    (enhanceTextHandler validate improveFmt fmt aiCall ctx variationSeed timeSeed text =
      .success (improveFmt text)
        (generateSmartFallbackEnhancement (improveFmt text) ctx variationSeed timeSeed)) ∧
    0 < (generateSmartFallbackEnhancement (improveFmt text) ctx variationSeed timeSeed).length ∧
    (∀ (s : EnhanceState) (o : EnhanceOutcome), o.aiCallFails = true →
      (enhanceReviewEndpoint s o).2 = 500) := by
  have h5 : ¬(text.length < 5) := by omega
  have hv : ¬(10 ≤ text.length ∧ validate text = false) := by
    rintro ⟨h10, hvf⟩
    rcases hvalid with h | h
    · omega
    · rw [h] at hvf
      exact Bool.noConfusion hvf
  refine ⟨?_, generateSmartFallbackEnhancement_nonempty _ _ _ _, ?_⟩
  · rcases hfail with h | ⟨t, ht, htr⟩
    · subst h
      simp [enhanceTextHandler, h5, hv]
    · subst ht
      simp [enhanceTextHandler, h5, hv, htr]
  · intro s o h
    obtain ⟨v, a, g, r, l⟩ := o
    simp only at h
    subst h
    cases v <;> cases g <;> cases r <;> cases l <;>
      simp [enhanceReviewEndpoint, aiServiceEnhanceReview]

/-- Witness for enhanceText_falls_back_on_ai_failure at a concrete validator,
formatter, text and failing model call. -/
theorem enhanceText_falls_back_on_ai_failure_witness :
    (enhanceTextHandler (fun _ => true) (fun s => s) (fun _ t => t) none {} 0 0
        "great service here" =
      .success "great service here"
        (generateSmartFallbackEnhancement "great service here" {} 0 0)) ∧
    0 < (generateSmartFallbackEnhancement "great service here" {} 0 0).length ∧
    (∀ (s : EnhanceState) (o : EnhanceOutcome), o.aiCallFails = true →
      (enhanceReviewEndpoint s o).2 = 500) :=
  enhanceText_falls_back_on_ai_failure (fun _ => true) (fun s => s) (fun _ t => t) none {} 0 0
    "great service here" (by decide) (Or.inr rfl) (Or.inl rfl)

/-- C6 (counterexample): the public review submission accepts a rating of 99 with an
absent feedback text: the review row is created (with feedback defaulted to the
empty string), so invalid submissions are neither rejected nor kept out of the
store. -/
theorem submitPublicReview_accepts_invalid_cx :
    submitPublicReview pubStoreCx
        { customerId := some 1, businessId := some 2, rating := some 99, feedback := none } =
      (.created { customerId := 1, businessId := 2, rating := 99, feedback := "" },
       { customers := [(1, 2)], businesses := [2],
         reviews := [{ customerId := 1, businessId := 2, rating := 99, feedback := "" }] }) := by
  decide

/-- C6 (amended): the public submission route validates presence only. A missing or
zero customerId, businessId or rating is rejected with one error message and no
record; an unknown (customer, business) pair is rejected not-found with no record;
otherwise the review is created exactly as sent — any non-zero integer rating is
accepted with no [1,5] range check, and feedback, defaulted to the empty string,
undergoes no content-quality validation. -/
theorem submitPublicReview_spec (st : ReviewStore) (req : PublicReviewRequest) :
    ((jsFalsyNat req.customerId || jsFalsyNat req.businessId || jsFalsyInt req.rating) = true →
      submitPublicReview st req =
        (.badRequest "Customer ID, business ID, and rating are required", st)) ∧
    (∀ (customerId businessId : Nat) (rating : Int),
      req.customerId = some customerId → req.businessId = some businessId →
      req.rating = some rating → customerId ≠ 0 → businessId ≠ 0 → rating ≠ 0 →
      (st.customers.any fun c => c.1 == customerId && c.2 == businessId) = false →
      submitPublicReview st req = (.notFound "Customer not found", st)) ∧
    (∀ (customerId businessId : Nat) (rating : Int),
      req.customerId = some customerId → req.businessId = some businessId →
      req.rating = some rating → customerId ≠ 0 → businessId ≠ 0 → rating ≠ 0 →
      (st.customers.any fun c => c.1 == customerId && c.2 == businessId) = true →
      st.businesses.contains businessId = true →
      submitPublicReview st req =
        (.created ⟨customerId, businessId, rating, req.feedback.getD ""⟩,
         { st with
            reviews := (⟨customerId, businessId, rating, req.feedback.getD ""⟩ : ReviewRow)
              :: st.reviews })) := by
  refine ⟨?_, ?_, ?_⟩
  · intro h
    simp [submitPublicReview, h]
  · intro customerId businessId rating hc hb hr hcz hbz hrz hcust
    simp [submitPublicReview, hc, hb, hr, jsFalsyNat, jsFalsyInt, hcz, hbz, hrz, hcust]
  · intro customerId businessId rating hc hb hr hcz hbz hrz hcust hbus
    have hbus2 : businessId ∈ st.businesses := by simpa using hbus
    simp [submitPublicReview, hc, hb, hr, jsFalsyNat, jsFalsyInt, hcz, hbz, hrz, hcust, hbus2]

/-- Witness for submitPublicReview_spec at a concrete store and valid request. -/
theorem submitPublicReview_spec_witness :
    submitPublicReview pubStoreCx
        { customerId := some 1, businessId := some 2, rating := some 5,
          feedback := some "ok" } =
      (.created { customerId := 1, businessId := 2, rating := 5, feedback := "ok" },
       { customers := [(1, 2)], businesses := [2],
         reviews := [{ customerId := 1, businessId := 2, rating := 5, feedback := "ok" }] }) := by
  have h := (submitPublicReview_spec pubStoreCx
      { customerId := some 1, businessId := some 2, rating := some 5,
        feedback := some "ok" }).2.2 1 2 5 rfl rfl rfl
    (by decide) (by decide) (by decide) (by decide) (by decide)
  simpa using h

/-- C7 (code bug): trackScan writes the QRScan row and the scansCount increment as
two separate statements with no transaction. When every call succeeds the invariant
holds — K calls from the empty state give K rows and count K — but the execution in
which the insert succeeds and the increment fails leaves one scan row with no
matching counter increment, the inconsistency the claim rules out. -/
theorem trackScan_not_atomic :
    (∀ K : Nat, Nat.iterate trackScanOk K { scanRows := 0, scansCount := 0 } =
      { scanRows := K, scansCount := K }) ∧
    (trackScan { scanRows := 0, scansCount := 0 }
        { scanCreateFails := false, countUpdateFails := true } =
      ({ scanRows := 1, scansCount := 0 }, false)) := by
  constructor
  · intro K
    induction K with
    | zero => rfl
    | succ n ih =>
      rw [Function.iterate_succ_apply', ih]
      rfl
  · decide

/-- C8: rejecting an AI_GENERATED review sets the generation status to REJECTED,
reverts the review status to PENDING, leaves the original feedback and rating
untouched, and un-blocks the already-enhanced guard of POST /enhance-review, so the
review can be enhanced again from its stored feedback. -/
theorem rejectReview_reverts_to_pending (r : Review) (g : AIGenRecord) (note : Option String)
    (_h : r.status = .AI_GENERATED) :
    (rejectReview r g note).2.status = .REJECTED ∧
    (rejectReview r g note).1.status = .PENDING ∧
    (rejectReview r g note).1.feedback = r.feedback ∧
    (rejectReview r g note).1.rating = r.rating ∧
    enhanceBlocked (some (rejectReview r g note).2) = false :=
  ⟨rfl, rfl, rfl, rfl, rfl⟩

/-- Witness for rejectReview_reverts_to_pending at a concrete review and generation. -/
theorem rejectReview_reverts_to_pending_witness :
    (rejectReview
        { status := .AI_GENERATED, rating := 5, feedback := "good place",
          generatedReview := some "A lovely visit." }
        { status := .PENDING, originalText := "good place",
          enhancedText := "A lovely visit.", rejectionNote := none }
        (some "too generic")).2.status = GenStatus.REJECTED ∧
    (rejectReview
        { status := .AI_GENERATED, rating := 5, feedback := "good place",
          generatedReview := some "A lovely visit." }
        { status := .PENDING, originalText := "good place",
          enhancedText := "A lovely visit.", rejectionNote := none }
        (some "too generic")).1.status = ReviewStatus.PENDING ∧
    (rejectReview
        { status := .AI_GENERATED, rating := 5, feedback := "good place",
          generatedReview := some "A lovely visit." }
        { status := .PENDING, originalText := "good place",
          enhancedText := "A lovely visit.", rejectionNote := none }
        (some "too generic")).1.feedback = "good place" ∧
    (rejectReview
        { status := .AI_GENERATED, rating := 5, feedback := "good place",
          generatedReview := some "A lovely visit." }
        { status := .PENDING, originalText := "good place",
          enhancedText := "A lovely visit.", rejectionNote := none }
        (some "too generic")).1.rating = 5 ∧
    enhanceBlocked (some (rejectReview
        { status := .AI_GENERATED, rating := 5, feedback := "good place",
          generatedReview := some "A lovely visit." }
        { status := .PENDING, originalText := "good place",
          enhancedText := "A lovely visit.", rejectionNote := none }
        (some "too generic")).2) = false :=
  rejectReview_reverts_to_pending
    { status := .AI_GENERATED, rating := 5, feedback := "good place",
      generatedReview := some "A lovely visit." }
    { status := .PENDING, originalText := "good place",
      enhancedText := "A lovely visit.", rejectionNote := none }
    (some "too generic") rfl

/-- C9 (counterexample): the specification's length bonus bracket is wrong at its
lower end. For one-word texts of equal length ("hi" enhanced to "yo") the code's
strict comparison gives no bonus (confidence 0.7), while the claimed closed interval
from one to two times the original length gives the bonus (0.8). -/
theorem calculateConfidence_cx :
    calculateConfidence "hi" "yo" = 7/10 ∧
    specClaimedConfidence "hi" "yo" = 4/5 ∧
    calculateConfidence "hi" "yo" ≠ specClaimedConfidence "hi" "yo" := by
  have h1 : splitWordsCount "hi" = 1 := rfl
  have h2 : splitWordsCount "yo" = 1 := rfl
  have h3 : properlyCapitalizedPunctuated "yo" = false := rfl
  refine ⟨?_, ?_, ?_⟩ <;>
    norm_num [calculateConfidence, specClaimedConfidence, h1, h2, h3, min_def]

/-- C9 (amended): the confidence is base 0.7, plus 0.1 when the enhanced word count
is strictly greater than the original word count and at most twice it, plus 0.1 when
the enhanced text contains a period and starts with a character unchanged by
uppercasing, capped at 1.0; consequently it always lies in the closed interval from
0 to 1. -/
theorem calculateConfidence_spec (original enhanced : String) :
    calculateConfidence original enhanced =
      min ((7 : ℚ)/10 +
        (if splitWordsCount original < splitWordsCount enhanced ∧
            splitWordsCount enhanced ≤ splitWordsCount original * 2 then (1 : ℚ)/10 else 0) +
        (if properlyCapitalizedPunctuated enhanced then (1 : ℚ)/10 else 0)) 1 ∧
    0 ≤ calculateConfidence original enhanced ∧
    calculateConfidence original enhanced ≤ 1 := by
  refine ⟨?_, ?_, ?_⟩ <;>
    simp only [calculateConfidence] <;>
    split_ifs <;>
    norm_num [min_def]

end ReviewSystem
